import Mathlib

/-!
Shallow embedding of the `evaluateProof` grading service.

The embedding follows `src/app/math_tutor.py` (class `MathTutor`) and
`src/app/evaluation.py` (`evaluation_function`).  External collaborators
(the OpenAI client, the filesystem, `json` parsing, the debug dispatcher)
are modelled as oracle fields of an `Env` record; everything with real
branching logic is translated directly from the source.  Python
exceptions are modelled with `Except String`; a `try/except` block
becomes a `match` on the inner computation.  Token-counter side effects
of `_get_completion` are not modelled.
-/

/-- Sentinel used throughout the code for a missing exemplary solution. -/
def noSolution : String := "No exemplary solution provided"

/-- In-band marker that switches the entry point into the debug dispatcher. -/
def testMarker : String := "[[test_mode_temporary]]"

/-- Bool test: does `n` occur as a contiguous sublist of the second list?
This is Python's substring test `n in hay`. -/
def subList : List Char → List Char → Bool
  | n, [] => n.isEmpty
  | n, c :: rest => n.isPrefixOf (c :: rest) || subList n rest

/-- Python `needle in hay` for strings. -/
def strContains (hay needle : String) : Bool :=
  subList needle.toList hay.toList

/-- Fuel-indexed core of Python `str.split(sep)` for a non-empty separator:
split on every non-overlapping occurrence, keeping empty segments.  The fuel
is the length of the scanned list, so it never runs out. -/
def pySplitCh (sep : List Char) : Nat → List Char → List (List Char)
  | _, [] => [[]]
  | 0, l => [l]
  | fuel+1, c :: rest =>
    if sep ≠ [] ∧ sep.isPrefixOf (c :: rest) then
      [] :: pySplitCh sep fuel (List.drop (sep.length - 1) rest)
    else
      match pySplitCh sep fuel rest with
      | [] => [[c]]
      | g :: gs => (c :: g) :: gs

/-- Python `s.split(sep)` (non-empty `sep`). -/
def pySplit (s sep : String) : List String :=
  (pySplitCh sep.toList s.toList.length s.toList).map fun l => String.mk l

/-- Python `sep.join(parts)`. -/
def joinSep (sep : String) : List String → String
  | [] => ""
  | [x] => x
  | x :: xs => x ++ sep ++ joinSep sep xs

/-- ASCII fragment of Python `str.lower()` (all uses in the source are on
ASCII model output such as `"Yes"`). -/
def pyLower (s : String) : String :=
  String.mk (s.toList.map fun c =>
    if 'A' ≤ c ∧ c ≤ 'Z' then Char.ofNat (c.toNat + 32) else c)

/-- Characters removed by Python `str.strip()` (ASCII fragment). -/
def pyWhitespace (c : Char) : Bool :=
  c = ' ' || c = '\t' || c = '\n' || c = '\r' || c = '\x0b' || c = '\x0c'

/-- Python `s.strip()` (ASCII fragment). -/
def pyStrip (s : String) : String :=
  String.mk (((s.toList.dropWhile pyWhitespace).reverse.dropWhile pyWhitespace).reverse)

/-- One part of a Python format string: literal text or a `{key}` placeholder. -/
inductive TmplPart where
  | lit (s : String)
  | var (k : String)
deriving DecidableEq, Repr

/-- A directive template: a parsed format string over the pipeline state. -/
abbrev Tmpl := List TmplPart

/-- Pipeline state: the mutable dict threaded through `_process_directives`. -/
abbrev St := String → Option String

/-- `state[k] = v`. -/
def stSet (st : St) (k v : String) : St :=
  fun q => if q = k then some v else st q

/-- Python `directive.format(**state)`: substitute placeholders left to
right; a placeholder naming a key absent from the state raises `KeyError`. -/
def render (st : St) : Tmpl → Except String String
  | [] => Except.ok ""
  | TmplPart.lit s :: rest =>
    match render st rest with
    | Except.error e => Except.error e
    | Except.ok r => Except.ok (s ++ r)
  | TmplPart.var k :: rest =>
    match st k with
    | none => Except.error ("KeyError: " ++ k)
    | some v =>
      match render st rest with
      | Except.error e => Except.error e
      | Except.ok r => Except.ok (v ++ r)

/-- The argument record of one `client.chat.completions.create` call. -/
structure ChatCall where
  model : String
  system : Option String
  user : String
  temperature : Option Rat
  reasoning_effort : Option String
deriving DecidableEq, Repr

/-- The fixed family markers tested in `_get_completion`
(`['o1', 'o3', 'o4', 'gpt-5']`). -/
def reasoningMarkers : List String := ["o1", "o3", "o4", "gpt-5"]

/-- `is_reasoning_model` from `_get_completion`: Python tests
`reasoning_prefix in resolved_model`, i.e. substring containment. -/
def is_reasoning_model (resolved : String) : Bool :=
  reasoningMarkers.any fun p => strContains resolved p

/-- `model if model is not None else self.config.get('model_name', 'gpt-5-mini')`. -/
def resolveModelName (cfgModel : Option String) (model : Option String) : String :=
  match model with
  | some m => m
  | none => cfgModel.getD "gpt-5-mini"

/-- The chat call issued by `_get_completion` for a rendered prompt:
reasoning-family models get no system message and no temperature but a
fixed low reasoning effort; all others get the configured system
instruction and the caller-supplied temperature. -/
def get_completion_call (sys_message : String) (cfgModel : Option String)
    (prompt : String) (temperature : Rat) (model : Option String) : ChatCall :=
  let resolved := resolveModelName cfgModel model
  if is_reasoning_model resolved then
    ⟨resolved, none, prompt, none, some "low"⟩
  else
    ⟨resolved, some sys_message, prompt, some temperature, none⟩

/-- Formalisation of the SPEC'S wording for the dispatch rule (not of the
code): membership "identified by name-prefix membership in a fixed small
set". -/
def reasoningByNamePrefixSpec (m : String) : Bool :=
  reasoningMarkers.any fun p => p.toList.isPrefixOf m.toList

/-- The JSON objects this service ever inspects are string-valued maps
(`question`, `answer`, `workflow`). -/
abbrev JsonObj := List (String × String)

/-- Result of `open(path); json.load(f).get('directives')`: success (with
the optional `directives` field), a `ValueError` (malformed JSON, caught by
the surrounding `except ValueError`), or any other exception. -/
inductive WorkflowLoad where
  | ok (directives : Option (List (String × Option Tmpl)))
  | valueError
  | err (e : String)

/-- The configuration bundle loaded from the JSON config file. -/
structure Config where
  context_instructions : String
  directives : List (String × Option Tmpl)
  /-- The config file's `variables` mapping (`variables` is reserved in Lean). -/
  variablesMap : List (String × String)
  model_name : Option String

/-- Oracles for the external collaborators: `json.loads` on the exemplary
solution (`none` models `ValueError`), workflow-file loading, the
moderation endpoint, the chat-completion endpoint, the debug dispatcher's
feedback text, and `os.getenv`. -/
structure Env where
  jsonParse : String → Option JsonObj
  loadWorkflow : String → WorkflowLoad
  moderation : String → Except String Bool
  chat : ChatCall → Except String String
  testMode : String → String
  getenv : String → Option String

/-- Events recorded while the engine runs: a gateway call made for a
directive, the `auto_solution` short-circuit, a skipped null directive, or
the meta-evaluation call. -/
inductive Ev where
  | gateway (key : String) (call : ChatCall)
  | shortCircuit (key : String)
  | skip (key : String)
  | meta (call : ChatCall)
deriving DecidableEq, Repr

/-- The directive name an event belongs to (`none` for the meta pass). -/
def Ev.key : Ev → Option String
  | Ev.gateway k _ => some k
  | Ev.shortCircuit k => some k
  | Ev.skip k => some k
  | Ev.meta _ => none

/-- `state['prompt']/['output']/['solution']` seeding followed by
`state.update(self.config.get('variables', {}))`. -/
def seedState (vars : List (String × String)) (q a sol : String) : St :=
  vars.foldl (fun s kv => stSet s kv.1 kv.2)
    (stSet (stSet (stSet (fun _ => none) "prompt" q) "output" a) "solution" sol)

/-- The non-short-circuited part of one iteration of the directive loop in
`_process_directives`: render the template against the whole current state
and call the gateway, or skip a null directive. -/
def runNormal (env : Env) (cfg : Config) (temperature : Rat) (model : Option String)
    (key : String) (directive : Option Tmpl) (st : St) : Except String (St × List Ev) :=
  match directive with
  | some t =>
    match render st t with
    | Except.error e => Except.error e
    | Except.ok prompt =>
      match env.chat (get_completion_call cfg.context_instructions cfg.model_name
          prompt temperature model) with
      | Except.error e => Except.error e
      | Except.ok resp =>
        Except.ok (stSet st key resp,
          [Ev.gateway key (get_completion_call cfg.context_instructions cfg.model_name
            prompt temperature model)])
  | none => Except.ok (st, [Ev.skip key])

/-- One iteration of the directive loop: the fall-through structure of the
Python loop body is the short-circuit test first, then the templated /
null handling of `runNormal`. -/
def runDir1 (env : Env) (cfg : Config) (temperature : Rat) (model : Option String)
    (key : String) (directive : Option Tmpl) (st : St) : Except String (St × List Ev) :=
  if key = "auto_solution" then
    match st "solution" with
    | none => Except.error "KeyError: solution"
    | some sol =>
      if sol = noSolution then runNormal env cfg temperature model key directive st
      else Except.ok (stSet st key sol, [Ev.shortCircuit key])
  else runNormal env cfg temperature model key directive st

/-- The directive loop of `_process_directives`, threading the state and
collecting events in execution order. -/
def runDirectives (env : Env) (cfg : Config) (temperature : Rat)
    (model : Option String) : List (String × Option Tmpl) → St → Except String (St × List Ev)
  | [], st => Except.ok (st, [])
  | d :: rest, st =>
    match runDir1 env cfg temperature model d.1 d.2 st with
    | Except.error e => Except.error e
    | Except.ok (st1, e1) =>
      match runDirectives env cfg temperature model rest st1 with
      | Except.error e => Except.error e
      | Except.ok (st2, e2) => Except.ok (st2, e1 ++ e2)

/-- `model, evaluator = model.split("__testmode__")` guarded by
`if model and "__testmode__" in model`; more than one marker makes the
unpacking raise `ValueError`. -/
def splitTestmode (model : Option String) : Except String (Option String × Option String) :=
  match model with
  | none => Except.ok (none, none)
  | some m =>
    if m ≠ "" ∧ strContains m "__testmode__" then
      match pySplit m "__testmode__" with
      | [a, b] => Except.ok (some a, some b)
      | _ => Except.error "ValueError: unpack"
    else Except.ok (some m, none)

/-- Python truthiness of the evaluator string (`if evaluator:`). -/
def evalTruthy : Option String → Bool
  | none => false
  | some s => s ≠ ""

/-- The fixed instruction built for the meta-evaluation pass. -/
def metaPrompt (p o fb : String) : String :=
  "Here is a mathematical homework assignment and the solution submitted by a student:\n\n"
    ++ p ++ "\n\n" ++ o
    ++ "\n\nHere is feedback given by a teaching assistant:\n\n" ++ fb
    ++ "\n\nPlease perform a meta-evaluation of the feedback given to the student. Highlight errors, weaknesses, and strengths of the feedback provided."

/-- `MathTutor._process_directives`: split the dual-model selector, seed the
state, run the directives, optionally run the meta-evaluation pass, and
return `state['feedback']` together with the final state and the events. -/
def process_directives (env : Env) (cfg : Config) (ad : String × String × String)
    (directives : List (String × Option Tmpl)) (temperature : Rat)
    (model : Option String) : Except String (String × St × List Ev) :=
  match splitTestmode model with
  | Except.error e => Except.error e
  | Except.ok (m, evaluator) =>
    let st0 := seedState cfg.variablesMap ad.1 ad.2.1 ad.2.2
    match runDirectives env cfg temperature m directives st0 with
    | Except.error e => Except.error e
    | Except.ok (st, evs) =>
      if evalTruthy evaluator then
        match st "prompt" with
        | none => Except.error "KeyError: prompt"
        | some p =>
          match st "output" with
          | none => Except.error "KeyError: output"
          | some o =>
            match st "feedback" with
            | none => Except.error "KeyError: feedback"
            | some fb =>
              let call : ChatCall := ⟨evaluator.getD "", none, metaPrompt p o fb, none, none⟩
              match env.chat call with
              | Except.error e => Except.error e
              | Except.ok metaResp =>
                let fb2 := fb ++ "\n\nMeta-evaluation of the feedback:\n\n" ++ metaResp
                Except.ok (fb2, stSet st "feedback" fb2, evs ++ [Ev.meta call])
      else
        match st "feedback" with
        | none => Except.error "KeyError: feedback"
        | some fb => Except.ok (fb, st, evs)

/-- The fallback in `process_input`'s `except ValueError` branch: split the
submission on `"Answer:"`; if the separator is absent, use the whole
submission as both question and answer and force the no-solution
sentinel.  The third component is the exemplary solution that is current
when the `ValueError` is raised. -/
def splitFallback (submission exemplary : String) : String × String × String :=
  match pySplit submission "Answer:" with
  | p :: q :: rest => (p, joinSep "Answer:" (q :: rest), exemplary)
  | _ => (submission, submission, noSolution)

/-- The input-parsing `try/except ValueError` block at the top of
`process_input`: parse the exemplary solution as JSON, read `question` /
`answer` (a missing field raises `KeyError`, which is not caught), load
the optional `workflow` directive file, and fall back to the submission
split on `ValueError`.  Returns `(question, answer, exemplary_solution,
workflow_override)`. -/
def resolveSubmission (env : Env) (submission exemplary_solution : String) :
    Except String (String × String × String × Option (List (String × Option Tmpl))) :=
  match env.jsonParse exemplary_solution with
  | some data =>
    match data.lookup "question" with
    | none => Except.error "KeyError: question"
    | some q =>
      match data.lookup "answer" with
      | none => Except.error "KeyError: answer"
      | some sol =>
        match data.lookup "workflow" with
        | none => Except.ok (q, submission, sol, none)
        | some path =>
          match env.loadWorkflow path with
          | WorkflowLoad.ok wf => Except.ok (q, submission, sol, wf)
          | WorkflowLoad.valueError =>
            match splitFallback submission sol with
            | (q2, a2, sol2) => Except.ok (q2, a2, sol2, none)
          | WorkflowLoad.err e => Except.error e
  | none =>
    match splitFallback submission exemplary_solution with
    | (q2, a2, sol2) => Except.ok (q2, a2, sol2, none)

/-- `process_input` returns a plain string on the normal path but a
`(message, "incorrect")` pair from the moderation and math-check early
returns. -/
inductive PyRet where
  | str (v : String)
  | pair (a b : String)
deriving DecidableEq, Repr

/-- Fixed early-return message for flagged submissions. -/
def moderationMsg : String :=
  "I apologize, but I cannot process this submission as it contains content that has been flagged as inappropriate. Please revise your submission and try again."

/-- System message of the embedded math-content classifier call. -/
def mathCheckSystem : String :=
  "You are a classifier that determines if a given text contains a statement that contains mathematical content. Respond only with 'Yes' or 'No'."

/-- User message of the embedded math-content classifier call. -/
def mathCheckUser (question submission : String) : String :=
  "Question: " ++ question ++ "\nSubmission: " ++ submission

/-- Early-return message when the classifier does not answer yes. -/
def notMathMsg (submission : String) : String :=
  "I'm sorry, but your submission doesn't appear to contain a mathematical question. Could you please rephrase your question to focus on a mathematical topic? Here is the submission:" ++ submission

/-- The rest of `process_input` after input parsing: moderation gate,
math-content gate, then the directive engine; returns the feedback value
and the engine events. -/
def pipelineAfterParse (env : Env) (cfg : Config) (submission q a sol : String)
    (directives : List (String × Option Tmpl)) (temperature : Rat)
    (model : Option String) : Except String (PyRet × List Ev) :=
  match env.moderation submission with
  | Except.error e => Except.error e
  | Except.ok flagged =>
    if flagged then Except.ok (PyRet.pair moderationMsg "incorrect", [])
    else
      let mcall : ChatCall :=
        ⟨"gpt-4o-mini", some mathCheckSystem, mathCheckUser q submission, some 0, none⟩
      match env.chat mcall with
      | Except.error e => Except.error e
      | Except.ok mresp =>
        if pyLower (pyStrip mresp) = "yes" then
          match process_directives env cfg (q, a, sol) directives temperature model with
          | Except.error e => Except.error e
          | Except.ok (fb, _st, evs) => Except.ok (PyRet.str fb, evs)
        else Except.ok (PyRet.pair (notMathMsg submission) "incorrect", [])

/-- `MathTutor.process_input`: parse/fall back, then pick the workflow
override if one was loaded, otherwise the configured directives, and run
the pipeline. -/
def process_input (env : Env) (cfg : Config) (submission exemplary_solution : String)
    (temperature : Rat) (model : Option String) : Except String (PyRet × List Ev) :=
  match resolveSubmission env submission exemplary_solution with
  | Except.error e => Except.error e
  | Except.ok (q, a, sol, wf) =>
    pipelineAfterParse env cfg submission q a sol (wf.getD cfg.directives) temperature model

/-- A Python value as the platform hands it to `evaluation_function`:
a string, a non-string container (where `in` works but `isinstance(_, str)`
fails), or a non-string scalar (where `in` raises `TypeError`). -/
inductive PyVal where
  | str (s : String)
  | container
  | scalar
deriving DecidableEq, Repr

/-- The platform result object. -/
structure Result where
  feedback : String
  is_correct : Bool
deriving DecidableEq, Repr

/-- Arguments of the one `tutor.process_input` call site in
`evaluation_function`, recorded for observability. -/
structure TutorCall where
  response : String
  answer : String
  model : Option String
deriving DecidableEq, Repr

/-- The `params` dict: `model_name` (absence raises `KeyError` at the call
site) and the nested `submission_context` counter (either level may be
missing, which the code catches as `KeyError`). -/
structure Params where
  model_name : Option String
  submission_context : Option (Option Int)

/-- The fixed submission ceiling `max_submissions_per_student_per_response_area`. -/
def maxSubmissions : Int := 6

/-- Fixed refusal feedback once the ceiling is reached. -/
def limitMsg : String :=
  "You have reached the maximum number of submissions per student for this question. Please try another one. If you believe this is an error, please contact your instructor."

/-- The remaining-attempts notice prefixed to feedback below the ceiling. -/
def subPrefixMsg (n : Int) : String :=
  "You have submitted " ++ toString (n + 1) ++ " times. You have "
    ++ toString (maxSubmissions - n - 1) ++ " submissions remaining.\n\n"

/-- Early return for non-string responses after the submission gate. -/
def invalidResponseMsg : String := "Invalid response format: expected string"

/-- The `answer` handling in `evaluation_function`: non-strings and
strings that fail to parse as JSON are replaced by the sentinel; a parsed
object must have `question` and `answer` fields (a missing one raises
`KeyError`, caught only by the outermost handler), and the original
string is then passed through unchanged. -/
def resolveAnswer (env : Env) (answer : PyVal) : Except String String :=
  match answer with
  | PyVal.str a =>
    match env.jsonParse a with
    | none => Except.ok noSolution
    | some obj =>
      match obj.lookup "question" with
      | none => Except.error "KeyError: question"
      | some _ =>
        match obj.lookup "answer" with
        | none => Except.error "KeyError: answer"
        | some _ => Except.ok a
  | _ => Except.ok noSolution

/-- The body of `evaluation_function` inside its outermost `try`: debug
dispatcher, submission-limit gate, response validation, answer
resolution, and the guarded `tutor.process_input` call.  The second
component records the arguments of the tutor call when it happens.
A `.error` models an exception reaching the outermost handler. -/
def evaluationInner (env : Env) (cfg : Config) (response answer : PyVal)
    (params : Params) : Except String (Result × Option TutorCall) :=
  match response with
  | PyVal.scalar => Except.error "TypeError: argument of type is not iterable"
  | PyVal.container =>
    -- membership testing works on containers; the marker is assumed absent,
    -- so the flow reaches the isinstance check below
    match params.submission_context with
    | some (some n) =>
      if n ≥ maxSubmissions then Except.ok (⟨limitMsg, false⟩, none)
      else Except.ok (⟨invalidResponseMsg, false⟩, none)
    | _ => Except.ok (⟨invalidResponseMsg, false⟩, none)
  | PyVal.str resp =>
    if strContains resp testMarker then
      Except.ok (⟨env.testMode resp, false⟩, none)
    else
      match params.submission_context with
      | some (some n) =>
        if n ≥ maxSubmissions then Except.ok (⟨limitMsg, false⟩, none)
        else evaluationMain env cfg resp answer params (subPrefixMsg n)
      | _ => evaluationMain env cfg resp answer params ""
where
  /-- Continuation after the submission-limit gate: `feedback_prefix` is
  the remaining-attempts notice or empty. -/
  evaluationMain (env : Env) (cfg : Config) (resp : String) (answer : PyVal)
      (params : Params) (fbPre : String) : Except String (Result × Option TutorCall) :=
    match resolveAnswer env answer with
    | Except.error e => Except.error e
    | Except.ok answerStr =>
      match params.model_name with
      | none =>
        Except.ok (⟨fbPre ++ ("An error occurred during the evaluation: " ++ "KeyError: model_name"), false⟩, none)
      | some m =>
        let call : TutorCall := ⟨resp, answerStr, some m⟩
        match process_input env cfg resp answerStr 0 (some m) with
        | Except.error e =>
          Except.ok (⟨fbPre ++ ("An error occurred during the evaluation: " ++ e), false⟩, some call)
        | Except.ok (PyRet.str fb, _evs) =>
          Except.ok (⟨fbPre ++ fb, false⟩, some call)
        | Except.ok (PyRet.pair _ _, _evs) =>
          Except.error "TypeError: can only concatenate str to str"

/-- `evaluation_function` with its outermost `except Exception` handler,
keeping the tutor-call record. -/
def evaluationRun (env : Env) (cfg : Config) (response answer : PyVal)
    (params : Params) : Result × Option TutorCall :=
  match evaluationInner env cfg response answer params with
  | Except.ok rc => rc
  | Except.error e => (⟨"Unexpected error during evaluation: " ++ e, false⟩, none)

/-- The platform entry point `evaluation_function`. -/
def evaluation_function (env : Env) (cfg : Config) (response answer : PyVal)
    (params : Params) : Result :=
  (evaluationRun env cfg response answer params).1

/-- `MathTutor` instance data after `__init__` (token counters start at 0). -/
structure Tutor where
  config : Config
  tokens_processed : Nat
  tokens_emitted : Nat

/-- `MathTutor.__init__`: load the config (the loaded result is passed in,
since file access is external), apply the optional model override, then
check the required environment variable.  The directive-key verification
that the adjacent comment describes is commented out in the source, so no
check of `config['directives']` happens here. -/
def mathTutorInit (env : Env) (loadedConfig : Except String Config)
    (model : Option String) : Except String Tutor :=
  match loadedConfig with
  | Except.error e => Except.error e
  | Except.ok cfg =>
    let cfg := match model with
      | some m => { cfg with model_name := some m }
      | none => cfg
    match env.getenv "OPENAI_API_KEY" with
    | none => Except.error "Missing required environment variable: OPENAI_API_KEY"
    | some _ => Except.ok ⟨cfg, 0, 0⟩

/-- Fixture: an environment whose classifier call answers yes and whose
other chat calls answer `"correct"`; nothing is flagged; nothing parses as
JSON; the API key is present. -/
def envYes : Env :=
  ⟨fun _ => none, fun _ => WorkflowLoad.ok none, fun _ => Except.ok false,
   fun c => Except.ok (if c.model = "gpt-4o-mini" then "Yes" else "correct"),
   fun _ => "debug", fun _ => some "key"⟩

/-- Fixture: a config with a `correctness` directive followed by a
`feedback` directive. -/
def cfgPlain : Config :=
  ⟨"sys",
   [("correctness", some [TmplPart.lit "Check: ", TmplPart.var "output"]),
    ("feedback", some [TmplPart.var "correctness"])],
   [], some "gpt-4o"⟩

/-- Fixture: an environment whose external calls all fail. -/
def envDown : Env :=
  ⟨fun _ => none, fun _ => WorkflowLoad.ok none, fun _ => Except.error "network down",
   fun _ => Except.error "network down", fun _ => "debug", fun _ => some "key"⟩

/-- Fixture: a config whose directives are `auto_solution` followed by
`feedback`. -/
def cfgAuto : Config :=
  ⟨"sys", [("auto_solution", none), ("feedback", some [TmplPart.lit "x"])],
   [], some "gpt-4o"⟩

/-- Fixture: an environment resolving one JSON payload with a `workflow`
field and serving one workflow file. -/
def envWf : Env :=
  ⟨fun s => if s = "EX" then
      some [("question", "Q"), ("answer", "A"), ("workflow", "alt.json")]
    else none,
   fun p => if p = "alt.json" then
      WorkflowLoad.ok (some [("feedback", some [TmplPart.lit "wf"])])
    else WorkflowLoad.ok none,
   fun _ => Except.ok false,
   fun c => Except.ok (if c.model = "gpt-4o-mini" then "Yes" else "correct"),
   fun _ => "debug", fun _ => some "key"⟩

/-- Python truthiness of `submission_context` being absent or below the
ceiling: the submission-limit gate does not fire. -/
def ctxBelow : Option (Option Int) → Prop
  | some (some n) => n < maxSubmissions
  | _ => True

/-- `state[k] = v` then reading `k`. -/
theorem stSet_self (st : St) (k v : String) : stSet st k v k = some v := by
  simp [stSet]

/-- `state[k] = v` leaves other keys unchanged. -/
theorem stSet_ne (st : St) {q k : String} (v : String) (h : q ≠ k) :
    stSet st k v q = st q := by
  simp [stSet, h]

/-- `state.update(vars)` leaves keys outside `vars` unchanged. -/
theorem foldlSet_not_mem {k : String} :
    ∀ (vars : List (String × String)) (st : St), k ∉ vars.map Prod.fst →
      (vars.foldl (fun s kv => stSet s kv.1 kv.2) st) k = st k := by
  intro vars
  induction vars with
  | nil => intro st _; rfl
  | cons kv rest ih =>
    intro st hk
    simp only [List.map_cons, List.mem_cons] at hk
    push_neg at hk
    simp only [List.foldl_cons]
    rw [ih _ hk.2, stSet_ne _ _ hk.1]

/-- Reading `solution` from the freshly seeded state when the config
variables do not rebind it. -/
theorem seedState_solution {vars : List (String × String)} (q a sol : String)
    (h : "solution" ∉ vars.map Prod.fst) :
    seedState vars q a sol "solution" = some sol := by
  unfold seedState
  rw [foldlSet_not_mem _ _ h, stSet_self]

/-- The normal (non-short-circuit) step only writes its own key. -/
theorem runNormal_frame {env : Env} {cfg : Config} {t : Rat} {m : Option String}
    {key : String} {d : Option Tmpl} {st st1 : St} {evs : List Ev}
    (h : runNormal env cfg t m key d st = Except.ok (st1, evs)) :
    ∀ q, q ≠ key → st1 q = st q := by
  intro q hq
  unfold runNormal at h
  split at h
  · split at h
    · cases h
    · split at h
      · cases h
      · cases h; exact stSet_ne _ _ hq
  · cases h; rfl

/-- Every event emitted by the normal step belongs to that step's key and
is a gateway call or a skip. -/
theorem runNormal_events {env : Env} {cfg : Config} {t : Rat} {m : Option String}
    {key : String} {d : Option Tmpl} {st st1 : St} {evs : List Ev}
    (h : runNormal env cfg t m key d st = Except.ok (st1, evs)) :
    ∀ ev ∈ evs, ev.key = some key ∧ ∀ k, ev ≠ Ev.shortCircuit k := by
  intro ev hev
  unfold runNormal at h
  split at h
  · split at h
    · cases h
    · split at h
      · cases h
      · cases h; simp at hev; subst hev; exact ⟨rfl, by simp⟩
  · cases h; simp at hev; subst hev; exact ⟨rfl, by simp⟩

/-- One directive step only writes its own key. -/
theorem runDir1_frame {env : Env} {cfg : Config} {t : Rat} {m : Option String}
    {key : String} {d : Option Tmpl} {st st1 : St} {evs : List Ev}
    (h : runDir1 env cfg t m key d st = Except.ok (st1, evs)) :
    ∀ q, q ≠ key → st1 q = st q := by
  intro q hq
  unfold runDir1 at h
  split at h
  · split at h
    · cases h
    · split at h
      · exact runNormal_frame h q hq
      · cases h; exact stSet_ne _ _ hq
  · exact runNormal_frame h q hq

/-- Every event emitted by one step belongs to that step's key. -/
theorem runDir1_events {env : Env} {cfg : Config} {t : Rat} {m : Option String}
    {key : String} {d : Option Tmpl} {st st1 : St} {evs : List Ev}
    (h : runDir1 env cfg t m key d st = Except.ok (st1, evs)) :
    ∀ ev ∈ evs, ev.key = some key := by
  intro ev hev
  unfold runDir1 at h
  split at h
  · split at h
    · cases h
    · split at h
      · exact (runNormal_events h ev hev).1
      · cases h; simp at hev; subst hev; rfl
  · exact (runNormal_events h ev hev).1

/-- A step at a key other than `solution`, on a state whose `solution` is
the sentinel, emits no short-circuit event and preserves the sentinel. -/
theorem runDir1_no_shortCircuit {env : Env} {cfg : Config} {t : Rat}
    {m : Option String} {key : String} {d : Option Tmpl} {st st1 : St} {evs : List Ev}
    (hkey : key ≠ "solution") (hsol : st "solution" = some noSolution)
    (h : runDir1 env cfg t m key d st = Except.ok (st1, evs)) :
    (∀ k, Ev.shortCircuit k ∉ evs) ∧ st1 "solution" = some noSolution := by
  have hframe := runDir1_frame h "solution" (fun hc => hkey hc.symm)
  refine ⟨?_, by rw [hframe, hsol]⟩
  intro k hk
  unfold runDir1 at h
  split at h
  · rw [hsol] at h
    simp only [if_pos] at h
    exact absurd rfl ((runNormal_events h _ hk).2 k)
  · exact absurd rfl ((runNormal_events h _ hk).2 k)

/-- The directive loop only writes keys named by its directives. -/
theorem runDirectives_frame {env : Env} {cfg : Config} {t : Rat} {m : Option String} :
    ∀ {L : List (String × Option Tmpl)} {st st1 : St} {evs : List Ev},
      runDirectives env cfg t m L st = Except.ok (st1, evs) →
      ∀ q, q ∉ L.map Prod.fst → st1 q = st q := by
  intro L
  induction L with
  | nil =>
    intro st st1 evs h q _
    unfold runDirectives at h
    cases h
    rfl
  | cons d rest ih =>
    intro st st1 evs h q hq
    simp only [List.map_cons, List.mem_cons] at hq
    push_neg at hq
    unfold runDirectives at h
    split at h
    · cases h
    · rename_i p h1
      split at h
      · cases h
      · rename_i p2 h2
        cases h
        rw [ih h2 q hq.2, runDir1_frame h1 q hq.1]

/-- Every event of a loop run belongs to some directive of the list. -/
theorem runDirectives_events {env : Env} {cfg : Config} {t : Rat} {m : Option String} :
    ∀ {L : List (String × Option Tmpl)} {st st1 : St} {evs : List Ev},
      runDirectives env cfg t m L st = Except.ok (st1, evs) →
      ∀ ev ∈ evs, ∃ k, ev.key = some k ∧ k ∈ L.map Prod.fst := by
  intro L
  induction L with
  | nil =>
    intro st st1 evs h ev hev
    unfold runDirectives at h
    cases h
    simp at hev
  | cons d rest ih =>
    intro st st1 evs h ev hev
    unfold runDirectives at h
    split at h
    · cases h
    · rename_i p h1
      split at h
      · cases h
      · rename_i p2 h2
        cases h
        rcases List.mem_append.1 hev with hl | hr
        · exact ⟨d.1, runDir1_events h1 ev hl, by simp⟩
        · obtain ⟨k, hk, hmem⟩ := ih h2 ev hr
          exact ⟨k, hk, by simp [hmem]⟩

/-- Splitting a loop run at a list append point. -/
theorem runDirectives_append (env : Env) (cfg : Config) (t : Rat) (m : Option String)
    (L1 L2 : List (String × Option Tmpl)) :
    ∀ st : St, runDirectives env cfg t m (L1 ++ L2) st =
      match runDirectives env cfg t m L1 st with
      | Except.error e => Except.error e
      | Except.ok (st1, e1) =>
        match runDirectives env cfg t m L2 st1 with
        | Except.error e => Except.error e
        | Except.ok (st2, e2) => Except.ok (st2, e1 ++ e2) := by
  induction L1 with
  | nil =>
    intro st
    simp only [List.nil_append]
    conv_rhs => rw [runDirectives]
    cases h2 : runDirectives env cfg t m L2 st with
    | error e => simp [h2]
    | ok p => cases p; simp [h2]
  | cons d rest ih =>
    intro st
    rw [List.cons_append, runDirectives, runDirectives]
    cases h1 : runDir1 env cfg t m d.1 d.2 st with
    | error e => simp
    | ok p =>
      cases p with
      | mk st1 e1 =>
        simp only []
        rw [ih st1]
        cases hr : runDirectives env cfg t m rest st1 with
        | error e => simp
        | ok q =>
          cases q with
          | mk st2 e2 =>
            simp only []
            cases h2 : runDirectives env cfg t m L2 st2 with
            | error e => simp
            | ok r => cases r; simp

/-- On a state carrying the no-solution sentinel, a loop over directives
none of which is named `solution` never takes the `auto_solution`
short-circuit, and the sentinel survives the run. -/
theorem runDirectives_no_shortCircuit {env : Env} {cfg : Config} {t : Rat}
    {m : Option String} :
    ∀ {L : List (String × Option Tmpl)} {st st1 : St} {evs : List Ev},
      st "solution" = some noSolution → "solution" ∉ L.map Prod.fst →
      runDirectives env cfg t m L st = Except.ok (st1, evs) →
      (∀ k, Ev.shortCircuit k ∉ evs) ∧ st1 "solution" = some noSolution := by
  intro L
  induction L with
  | nil =>
    intro st st1 evs hsol _ h
    unfold runDirectives at h
    cases h
    exact ⟨by simp, hsol⟩
  | cons d rest ih =>
    intro st st1 evs hsol hL h
    simp only [List.map_cons, List.mem_cons] at hL
    push_neg at hL
    unfold runDirectives at h
    split at h
    · cases h
    · rename_i p h1
      split at h
      · cases h
      · rename_i p2 h2
        cases h
        obtain ⟨hsc1, hsol1⟩ := runDir1_no_shortCircuit (fun hc => hL.1 hc.symm) hsol h1
        obtain ⟨hsc2, hsol2⟩ := ih hsol1 hL.2 h2
        refine ⟨?_, hsol2⟩
        intro k hk
        rcases List.mem_append.1 hk with hl | hr
        · exact hsc1 k hl
        · exact hsc2 k hr

/-- Rebuilding a string from its character list. -/
theorem strMk_toList (s : String) : String.mk s.toList = s := by
  cases s
  rfl

/-- Splitting on an absent separator yields the whole list. -/
theorem pySplitCh_no_sep {sep : List Char} :
    ∀ (l : List Char) (fuel : Nat), l.length ≤ fuel → subList sep l = false →
      pySplitCh sep fuel l = [l] := by
  intro l
  induction l with
  | nil =>
    intro fuel _ _
    cases fuel <;> rfl
  | cons c rest ih =>
    intro fuel hlen h
    cases fuel with
    | zero => simp at hlen
    | succ f =>
      unfold subList at h
      rw [Bool.or_eq_false_iff] at h
      unfold pySplitCh
      rw [if_neg (fun hc => by simp [h.1] at hc)]
      rw [ih f (by simpa using hlen) h.2]

/-- Python `s.split(sep)` on a string not containing `sep`. -/
theorem pySplit_no_sep {s sep : String} (h : strContains s sep = false) :
    pySplit s sep = [s] := by
  unfold pySplit
  rw [pySplitCh_no_sep s.toList s.toList.length (le_refl _) h]
  simp [strMk_toList]

/-- With no `"Answer:"` separator, the fallback uses the whole submission
as both question and answer and forces the sentinel. -/
theorem splitFallback_no_sep {sub ex : String}
    (h : strContains sub "Answer:" = false) :
    splitFallback sub ex = (sub, sub, noSolution) := by
  unfold splitFallback
  rw [pySplit_no_sep h]

/-- Whatever the split shape, falling back from the sentinel keeps the
sentinel as the exemplary solution. -/
theorem splitFallback_sentinel (sub : String) :
    (splitFallback sub noSolution).2.2 = noSolution := by
  unfold splitFallback
  split
  · rfl
  · rfl

/-- When the exemplary payload is the sentinel (which is not JSON), input
resolution takes the fallback path: no workflow override and the sentinel
as the seed solution. -/
theorem resolveSubmission_sentinel {env : Env} {sub : String}
    (hjs : env.jsonParse noSolution = none) :
    resolveSubmission env sub noSolution =
      Except.ok ((splitFallback sub noSolution).1,
        (splitFallback sub noSolution).2.1, noSolution, none) := by
  unfold resolveSubmission
  rw [hjs]
  rcases hsf : splitFallback sub noSolution with ⟨q2, a2, sol2⟩
  have : sol2 = noSolution := by
    have := splitFallback_sentinel sub
    rw [hsf] at this
    exact this
  subst this
  rfl

/-- The guarded tutor call never produces a result with `is_correct = true`. -/
theorem evaluationMain_is_correct_false {env : Env} {cfg : Config} {resp : String}
    {answer : PyVal} {params : Params} {fbPre : String}
    {rc : Result × Option TutorCall}
    (h : evaluationInner.evaluationMain env cfg resp answer params fbPre = Except.ok rc) :
    rc.1.is_correct = false := by
  unfold evaluationInner.evaluationMain at h
  split at h
  · cases h
  · split at h
    · cases h; rfl
    · split at h
      · cases h; rfl
      · cases h; rfl
      · cases h

/-- No success path of the entry-point body produces `is_correct = true`. -/
theorem evaluationInner_is_correct_false {env : Env} {cfg : Config}
    {r a : PyVal} {p : Params} {rc : Result × Option TutorCall}
    (h : evaluationInner env cfg r a p = Except.ok rc) :
    rc.1.is_correct = false := by
  unfold evaluationInner at h
  split at h
  · cases h
  · split at h
    · split at h
      · cases h; rfl
      · cases h; rfl
    · cases h; rfl
  · split at h
    · cases h; rfl
    · split at h
      · split at h
        · cases h; rfl
        · exact evaluationMain_is_correct_false h
      · exact evaluationMain_is_correct_false h

/-- The entry point as a whole never reports `is_correct = true`. -/
theorem evaluationRun_is_correct_false (env : Env) (cfg : Config)
    (r a : PyVal) (p : Params) :
    (evaluationRun env cfg r a p).1.is_correct = false := by
  unfold evaluationRun
  cases hi : evaluationInner env cfg r a p with
  | error e => rfl
  | ok rc => exact evaluationInner_is_correct_false hi

/-- Appending to the empty string. -/
theorem strEmptyAppend (s : String) : "" ++ s = s := rfl

/-- C1, counterexample: a run in which the correctness directive's textual
output is exactly `"correct"` (so its lower-cased form equals `"correct"`),
yet the entry point returns `is_correct = false`: the correctness output
is never mapped into the result flag. -/
theorem c1_counterexample :
    (process_directives envYes cfgPlain ("What is 2+2?", " The answer is 4.", noSolution)
        cfgPlain.directives 0 (some "gpt-4o")).toOption.map (fun r => r.2.1 "correctness")
      = some (some "correct")
    ∧ pyLower (pyStrip "correct") = "correct"
    ∧ evaluation_function envYes cfgPlain
        (PyVal.str "What is 2+2?Answer: The answer is 4.") (PyVal.str noSolution)
        ⟨some "gpt-4o", none⟩
      = ⟨"correct", false⟩ :=
  ⟨rfl, rfl, rfl⟩

/-- C1 (amended): the entry point always returns a well-formed
`{feedback, is_correct}` object, but `is_correct` is `false` on every run,
whatever the correctness directive produced. -/
theorem c1_is_correct_always_false (env : Env) (cfg : Config)
    (response answer : PyVal) (params : Params) :
    (evaluation_function env cfg response answer params).is_correct = false :=
  evaluationRun_is_correct_false env cfg response answer params

/-- C2: constructing the engine with a config whose directives lack
`feedback` (or any other key) succeeds whenever the API key is present;
the directive-key validation described by the source comment is commented
out, so construction never fails on missing declared keys. -/
theorem c2_init_skips_validation (env : Env) (cfg : Config) (k : String)
    (hkey : env.getenv "OPENAI_API_KEY" = some k)
    (hmiss : "feedback" ∉ cfg.directives.map Prod.fst) :
    mathTutorInit env (Except.ok cfg) none = Except.ok ⟨cfg, 0, 0⟩ := by
  unfold mathTutorInit
  rw [hkey]

/-- C2, witness: a config with no directives at all still constructs. -/
theorem c2_init_skips_validation_witness :
    mathTutorInit envYes (Except.ok ⟨"sys", [], [], none⟩) none
      = Except.ok ⟨⟨"sys", [], [], none⟩, 0, 0⟩ :=
  c2_init_skips_validation envYes ⟨"sys", [], [], none⟩ "key" rfl (by simp)

/-- C3, counterexample: the model name `"x-o1"` fails the spec's
name-prefix test, yet the issued call carries no system message and no
temperature and a fixed low reasoning effort, because the code tests
substring containment. -/
theorem c3_counterexample :
    reasoningByNamePrefixSpec "x-o1" = false
    ∧ (get_completion_call "sys" none "p" 0 (some "x-o1")).system = none
    ∧ (get_completion_call "sys" none "p" 0 (some "x-o1")).temperature = none
    ∧ (get_completion_call "sys" none "p" 0 (some "x-o1")).reasoning_effort = some "low" :=
  ⟨rfl, rfl, rfl, rfl⟩

/-- C3 (amended): the call shape is decided by substring membership of
`o1`/`o3`/`o4`/`gpt-5` in the resolved model name: with a marker present
the call has no system message, no temperature, and low reasoning effort;
with no marker present it carries the system instruction and the
caller-supplied temperature. -/
theorem c3_substring_dispatch (sys p : String) (t : Rat)
    (cfgModel model : Option String) :
    ((reasoningMarkers.any fun q => strContains (resolveModelName cfgModel model) q) = true →
      get_completion_call sys cfgModel p t model
        = ⟨resolveModelName cfgModel model, none, p, none, some "low"⟩)
    ∧ ((reasoningMarkers.any fun q => strContains (resolveModelName cfgModel model) q) = false →
      get_completion_call sys cfgModel p t model
        = ⟨resolveModelName cfgModel model, some sys, p, some t, none⟩) := by
  constructor <;> intro h <;> simp [get_completion_call, is_reasoning_model, h]

/-- C3, witness: both shapes at concrete model names. -/
theorem c3_substring_dispatch_witness :
    get_completion_call "sys" none "p" 0 (some "o1-mini")
      = ⟨"o1-mini", none, "p", none, some "low"⟩
    ∧ get_completion_call "sys" none "p" 0 (some "llama")
      = ⟨"llama", some "sys", "p", some 0, none⟩ :=
  ⟨(c3_substring_dispatch "sys" "p" 0 none (some "o1-mini")).1 rfl,
   (c3_substring_dispatch "sys" "p" 0 none (some "llama")).2 rfl⟩

/-- C4: the entry point never lets a fault escape.  A failure anywhere in
the tutor pipeline (gateway/network errors included) surfaces as feedback
text describing the failure together with `is_correct = false`; and even a
non-string response, whose membership test raises `TypeError`, comes back
as a well-formed result object via the outermost handler. -/
theorem c4_errors_surface_as_feedback (env : Env) (cfg : Config)
    (resp m e : String)
    (hmark : strContains resp testMarker = false)
    (hrun : process_input env cfg resp noSolution 0 (some m) = Except.error e) :
    evaluationRun env cfg (PyVal.str resp) PyVal.scalar ⟨some m, none⟩
      = (⟨"An error occurred during the evaluation: " ++ e, false⟩,
         some ⟨resp, noSolution, some m⟩)
    ∧ ∀ (a : PyVal) (p : Params),
        evaluationRun env cfg PyVal.scalar a p
          = (⟨"Unexpected error during evaluation: "
              ++ "TypeError: argument of type is not iterable", false⟩, none) := by
  constructor
  · unfold evaluationRun evaluationInner evaluationInner.evaluationMain
    simp [hmark, resolveAnswer, hrun, strEmptyAppend]
  · intro a p
    rfl

/-- C4, witness: a moderation/network failure at a concrete input surfaces
as feedback text. -/
theorem c4_errors_surface_as_feedback_witness :
    evaluationRun envDown cfgPlain (PyVal.str "hi") PyVal.scalar ⟨some "gpt-4o", none⟩
      = (⟨"An error occurred during the evaluation: network down", false⟩,
         some ⟨"hi", noSolution, some "gpt-4o"⟩) :=
  (c4_errors_surface_as_feedback envDown cfgPlain "hi" "gpt-4o" "network down" rfl rfl).1

/-- C5: in a run whose directive list contains `auto_solution` (directive
names are unique in a Python dict, and neither a directive nor a config
variable rebinds the seed key `solution`), a non-sentinel input solution
is copied verbatim into the final state's `auto_solution` key and no
gateway call is ever made for that directive. -/
theorem c5_auto_solution_short_circuit
    (env : Env) (cfg : Config) (q a sol : String) (t : Rat) (model : Option String)
    (pre post : List (String × Option Tmpl)) (d : Option Tmpl)
    (fb : String) (st : St) (evs : List Ev)
    (hsol : sol ≠ noSolution)
    (hA : "auto_solution" ∉ pre.map Prod.fst)
    (hB : "auto_solution" ∉ post.map Prod.fst)
    (hS : "solution" ∉ pre.map Prod.fst)
    (hvars : "solution" ∉ cfg.variablesMap.map Prod.fst)
    (hrun : process_directives env cfg (q, a, sol)
        (pre ++ ("auto_solution", d) :: post) t model = Except.ok (fb, st, evs)) :
    st "auto_solution" = some sol
    ∧ ∀ call, Ev.gateway "auto_solution" call ∉ evs := by
  unfold process_directives at hrun
  cases hsplit : splitTestmode model with
  | error e => rw [hsplit] at hrun; cases hrun
  | ok me =>
    rw [hsplit] at hrun
    cases me with
    | mk m2 ev2 =>
      simp only [] at hrun
      have hst0 : seedState cfg.variablesMap q a sol "solution" = some sol :=
        seedState_solution q a sol hvars
      rw [runDirectives_append] at hrun
      cases hpre : runDirectives env cfg t m2 pre (seedState cfg.variablesMap q a sol) with
      | error e => rw [hpre] at hrun; cases hrun
      | ok pp =>
        rw [hpre] at hrun
        cases pp with
        | mk stp ep =>
          have hstp : stp "solution" = some sol := by
            rw [runDirectives_frame hpre "solution" hS, hst0]
          simp only [] at hrun
          rw [runDirectives] at hrun
          have hstep : runDir1 env cfg t m2 "auto_solution" d stp
              = Except.ok (stSet stp "auto_solution" sol, [Ev.shortCircuit "auto_solution"]) := by
            unfold runDir1
            rw [if_pos rfl, hstp]
            simp only []
            rw [if_neg hsol]
          rw [hstep] at hrun
          simp only [] at hrun
          cases hpost : runDirectives env cfg t m2 post (stSet stp "auto_solution" sol) with
          | error e => rw [hpost] at hrun; cases hrun
          | ok qq =>
            rw [hpost] at hrun
            cases qq with
            | mk stq eq2 =>
              simp only [] at hrun
              have hstq : stq "auto_solution" = some sol := by
                rw [runDirectives_frame hpost "auto_solution" hB, stSet_self]
              have hign : ∀ call, Ev.gateway "auto_solution" call
                  ∉ ep ++ [Ev.shortCircuit "auto_solution"] ++ eq2 := by
                intro call hmem
                rcases List.mem_append.1 hmem with hl | hr
                · rcases List.mem_append.1 hl with hll | hlr
                  · obtain ⟨k, hk, hkmem⟩ := runDirectives_events hpre _ hll
                    simp only [Ev.key, Option.some.injEq] at hk
                    exact hA (hk ▸ hkmem)
                  · simp at hlr
                · obtain ⟨k, hk, hkmem⟩ := runDirectives_events hpost _ hr
                  simp only [Ev.key, Option.some.injEq] at hk
                  exact hB (hk ▸ hkmem)
              split at hrun
              · split at hrun
                · cases hrun
                · split at hrun
                  · cases hrun
                  · split at hrun
                    · cases hrun
                    · split at hrun
                      · cases hrun
                      · cases hrun
                        constructor
                        · rw [stSet_ne _ _ (by decide), hstq]
                        · intro call hmem
                          rcases List.mem_append.1 hmem with hl | hr
                          · exact hign call (by simpa using hl)
                          · simp at hr
              · split at hrun
                · cases hrun
                · cases hrun
                  refine ⟨hstq, ?_⟩
                  intro call hmem
                  exact hign call (by simpa using hmem)

/-- C5, witness: a concrete run with a non-sentinel solution ends with
`auto_solution` bound to that solution. -/
theorem c5_auto_solution_short_circuit_witness :
    (process_directives envYes cfgAuto ("q", "a", "SOL")
        [("auto_solution", none), ("feedback", some [TmplPart.lit "x"])]
        0 (some "gpt-4o")).toOption.map (fun r => r.2.1 "auto_solution")
      = some (some "SOL") := by
  obtain ⟨fb, st, evs, h⟩ :
      ∃ fb st evs, process_directives envYes cfgAuto ("q", "a", "SOL")
        [("auto_solution", none), ("feedback", some [TmplPart.lit "x"])]
        0 (some "gpt-4o") = Except.ok (fb, st, evs) := ⟨_, _, _, rfl⟩
  have hmain := c5_auto_solution_short_circuit envYes cfgAuto "q" "a" "SOL" 0
    (some "gpt-4o") [] [("feedback", some [TmplPart.lit "x"])] none fb st evs
    (by decide) (by decide) (by decide) (by decide) (by decide)
    (by simpa using h)
  rw [h]
  exact congrArg some hmain.1

/-- C6: with the counter at or above the fixed ceiling 6, the entry point
returns the fixed refusal with `is_correct = false` and never invokes the
pipeline; with the counter at 5 it proceeds normally and prefixes the
pipeline feedback with the remaining-attempts notice. -/
theorem c6_submission_limit_gate (env : Env) (cfg : Config)
    (resp m fb : String) (evs : List Ev)
    (hmark : strContains resp testMarker = false)
    (hrun : process_input env cfg resp noSolution 0 (some m)
      = Except.ok (PyRet.str fb, evs)) :
    (∀ n : Int, maxSubmissions ≤ n →
      evaluationRun env cfg (PyVal.str resp) PyVal.scalar ⟨some m, some (some n)⟩
        = (⟨limitMsg, false⟩, none))
    ∧ evaluationRun env cfg (PyVal.str resp) PyVal.scalar ⟨some m, some (some 5)⟩
        = (⟨subPrefixMsg 5 ++ fb, false⟩, some ⟨resp, noSolution, some m⟩)
    ∧ subPrefixMsg 5
        = "You have submitted 6 times. You have 0 submissions remaining.\n\n" := by
  refine ⟨?_, ?_, by rfl⟩
  · intro n hn
    unfold evaluationRun evaluationInner
    simp [hmark, hn]
  · unfold evaluationRun evaluationInner evaluationInner.evaluationMain
    simp [hmark, resolveAnswer, hrun, maxSubmissions]

/-- C6, witness: both gate behaviours at a concrete input. -/
theorem c6_submission_limit_gate_witness :
    evaluationRun envYes cfgPlain (PyVal.str "hi") PyVal.scalar
        ⟨some "gpt-4o", some (some 6)⟩ = (⟨limitMsg, false⟩, none)
    ∧ evaluationRun envYes cfgPlain (PyVal.str "hi") PyVal.scalar
        ⟨some "gpt-4o", some (some 5)⟩
      = (⟨subPrefixMsg 5 ++ "correct", false⟩,
         some ⟨"hi", noSolution, some "gpt-4o"⟩) := by
  obtain ⟨evs, hrun⟩ : ∃ evs, process_input envYes cfgPlain "hi" noSolution 0 (some "gpt-4o")
      = Except.ok (PyRet.str "correct", evs) := ⟨_, rfl⟩
  have h := c6_submission_limit_gate envYes cfgPlain "hi" "gpt-4o" "correct" evs rfl hrun
  exact ⟨h.1 6 (by decide), h.2.1⟩

/-- C7: when the exemplary-solution payload parses as JSON with a
`workflow` field and the named file yields a directive set, that set is
executed in place of the configured directives for this invocation; an
invocation whose payload has no `workflow` field, or does not parse at
all, runs the configured directives (workflow choice is recomputed per
call and nothing is cached). -/
theorem c7_workflow_override (env : Env) (cfg : Config) (sub ex : String)
    (data : JsonObj) (q sol path : String) (D : List (String × Option Tmpl))
    (t : Rat) (model : Option String)
    (hj : env.jsonParse ex = some data)
    (hq : data.lookup "question" = some q)
    (ha : data.lookup "answer" = some sol)
    (hw : data.lookup "workflow" = some path)
    (hload : env.loadWorkflow path = WorkflowLoad.ok (some D)) :
    resolveSubmission env sub ex = Except.ok (q, sub, sol, some D)
    ∧ process_input env cfg sub ex t model
        = pipelineAfterParse env cfg sub q sub sol D t model
    ∧ (∀ (ex2 : String) (data2 : JsonObj) (q2 sol2 : String),
        env.jsonParse ex2 = some data2 →
        data2.lookup "question" = some q2 → data2.lookup "answer" = some sol2 →
        data2.lookup "workflow" = none →
        process_input env cfg sub ex2 t model
          = pipelineAfterParse env cfg sub q2 sub sol2 cfg.directives t model)
    ∧ (∀ ex3 : String, env.jsonParse ex3 = none →
        process_input env cfg sub ex3 t model
          = pipelineAfterParse env cfg sub (splitFallback sub ex3).1
              (splitFallback sub ex3).2.1 (splitFallback sub ex3).2.2
              cfg.directives t model) := by
  have hres : resolveSubmission env sub ex = Except.ok (q, sub, sol, some D) := by
    unfold resolveSubmission
    simp only [hj, hq, ha, hw, hload]
  refine ⟨hres, ?_, ?_, ?_⟩
  · unfold process_input
    rw [hres]
    rfl
  · intro ex2 data2 q2 sol2 hj2 hq2 ha2 hw2
    unfold process_input resolveSubmission
    simp only [hj2, hq2, ha2, hw2]
    rfl
  · intro ex3 hj3
    unfold process_input resolveSubmission
    simp only [hj3]
    rcases hsf : splitFallback sub ex3 with ⟨q3, a3, sol3⟩
    rfl

/-- C7, witness: the override directive set is selected at a concrete
payload. -/
theorem c7_workflow_override_witness :
    resolveSubmission envWf "SUB" "EX"
      = Except.ok ("Q", "SUB", "A", some [("feedback", some [TmplPart.lit "wf"])])
    ∧ process_input envWf cfgPlain "SUB" "EX" 0 (some "gpt-4o")
      = pipelineAfterParse envWf cfgPlain "SUB" "Q" "SUB" "A"
          [("feedback", some [TmplPart.lit "wf"])] 0 (some "gpt-4o") := by
  have h := c7_workflow_override envWf cfgPlain "SUB" "EX"
    [("question", "Q"), ("answer", "A"), ("workflow", "alt.json")]
    "Q" "A" "alt.json" [("feedback", some [TmplPart.lit "wf"])] 0 (some "gpt-4o")
    rfl rfl rfl rfl rfl
  exact ⟨h.1, h.2.1⟩

/-- C8: when the exemplary payload is not JSON and the submission lacks
the `"Answer:"` separator, input resolution does not raise: the whole
submission becomes both question and answer, the exemplary solution is
forced to the sentinel, and the entry point still returns a well-formed
result object. -/
theorem c8_no_separator_fallback (env : Env) (cfg : Config)
    (resp ex : String) (a : PyVal) (params : Params)
    (hj : env.jsonParse ex = none)
    (hsep : strContains resp "Answer:" = false) :
    resolveSubmission env resp ex = Except.ok (resp, resp, noSolution, none)
    ∧ (∀ (t : Rat) (mm : Option String), process_input env cfg resp ex t mm
        = pipelineAfterParse env cfg resp resp resp noSolution cfg.directives t mm)
    ∧ ∃ fb rec, evaluationRun env cfg (PyVal.str resp) a params
        = (⟨fb, false⟩, rec) := by
  have hres : resolveSubmission env resp ex
      = Except.ok (resp, resp, noSolution, none) := by
    unfold resolveSubmission
    simp only [hj, splitFallback_no_sep hsep]
  refine ⟨hres, ?_, ?_⟩
  · intro t mm
    unfold process_input
    rw [hres]
    rfl
  · refine ⟨(evaluationRun env cfg (PyVal.str resp) a params).1.feedback,
      (evaluationRun env cfg (PyVal.str resp) a params).2, ?_⟩
    have hc := evaluationRun_is_correct_false env cfg (PyVal.str resp) a params
    cases hk : evaluationRun env cfg (PyVal.str resp) a params with
    | mk r rec =>
      rw [hk] at hc
      cases r
      simp only [hk]
      simp at hc
      rw [hc]

/-- C8, witness: at a concrete separator-free submission. -/
theorem c8_no_separator_fallback_witness :
    resolveSubmission envYes "just a question" "plain text"
      = Except.ok ("just a question", "just a question", noSolution, none) :=
  (c8_no_separator_fallback envYes cfgPlain "just a question" "plain text"
    PyVal.scalar ⟨some "gpt-4o", none⟩ rfl rfl).1

/-- C9: when the directive reached next has a template that fails to
render against the current state (a missing state key), the whole engine
run fails with exactly that error: nothing is swallowed, no step is
retried, and the failure propagates out of `_process_directives` to its
caller.  The hypothesis on `auto_solution` only rules out the
short-circuit, under which no rendering happens at all. -/
theorem c9_render_failure_propagates (env : Env) (cfg : Config)
    (q a sol : String) (t : Rat) (model : Option String)
    (pre rest : List (String × Option Tmpl)) (k : String) (tm : Tmpl) (e : String)
    (m2 ev2 : Option String) (st1 : St) (evs : List Ev)
    (hsplit : splitTestmode model = Except.ok (m2, ev2))
    (hpre : runDirectives env cfg t m2 pre (seedState cfg.variablesMap q a sol)
      = Except.ok (st1, evs))
    (hauto : k = "auto_solution" → st1 "solution" = some noSolution)
    (hrender : render st1 tm = Except.error e) :
    process_directives env cfg (q, a, sol) (pre ++ (k, some tm) :: rest) t model
      = Except.error e := by
  have hstep : runDir1 env cfg t m2 k (some tm) st1 = Except.error e := by
    have hnorm : runNormal env cfg t m2 k (some tm) st1 = Except.error e := by
      unfold runNormal
      simp only [hrender]
    unfold runDir1
    by_cases hk : k = "auto_solution"
    · rw [if_pos hk, hauto hk]
      simp only [if_pos]
      exact hnorm
    · rw [if_neg hk]
      exact hnorm
  unfold process_directives
  rw [hsplit]
  simp only []
  rw [runDirectives_append, hpre]
  simp only []
  rw [runDirectives]
  simp only []
  rw [hstep]

/-- C9, witness: a directive whose template names an absent key fails the
whole run with that key's error. -/
theorem c9_render_failure_propagates_witness :
    process_directives envYes cfgPlain ("q", "a", noSolution)
      [("feedback", some [TmplPart.var "missing"])] 0 (some "gpt-4o")
      = Except.error ("KeyError: " ++ "missing") :=
  c9_render_failure_propagates envYes cfgPlain "q" "a" noSolution 0 (some "gpt-4o")
    [] [] "feedback" [TmplPart.var "missing"] ("KeyError: " ++ "missing")
    (some "gpt-4o") none (seedState cfgPlain.variablesMap "q" "a" noSolution) []
    rfl rfl (fun h => absurd h (by decide)) rfl

/-- An engine run seeded with the sentinel solution (no directive or
config variable named `solution`) never takes the `auto_solution`
short-circuit. -/
theorem process_directives_no_shortCircuit {env : Env} {cfg : Config}
    {q2 a2 : String} {t : Rat} {m : Option String}
    {D : List (String × Option Tmpl)} {fb : String} {st : St} {evs : List Ev}
    (hvars : "solution" ∉ cfg.variablesMap.map Prod.fst)
    (hdirs : "solution" ∉ D.map Prod.fst)
    (h : process_directives env cfg (q2, a2, noSolution) D t m = Except.ok (fb, st, evs)) :
    ∀ k, Ev.shortCircuit k ∉ evs := by
  unfold process_directives at h
  cases hsp : splitTestmode m with
  | error e => rw [hsp] at h; cases h
  | ok me =>
    rw [hsp] at h
    cases me with
    | mk mm ev2 =>
      simp only [] at h
      cases hR : runDirectives env cfg t mm D (seedState cfg.variablesMap q2 a2 noSolution) with
      | error e => rw [hR] at h; cases h
      | ok p =>
        rw [hR] at h
        cases p with
        | mk str evr =>
          have hseed : seedState cfg.variablesMap q2 a2 noSolution "solution"
              = some noSolution := seedState_solution q2 a2 noSolution hvars
          have hnsc := (runDirectives_no_shortCircuit hseed hdirs hR).1
          simp only [] at h
          split at h
          · split at h
            · cases h
            · split at h
              · cases h
              · split at h
                · cases h
                · split at h
                  · cases h
                  · cases h
                    intro k hk
                    rcases List.mem_append.1 hk with hl | hr
                    · exact hnsc k hl
                    · simp at hr
          · split at h
            · cases h
            · cases h
              exact hnsc

/-- C10: when the platform's `answer` string does not parse as JSON, the
entry point discards it and invokes the tutor with the sentinel exemplary
solution, so the `auto_solution` short-circuit can never fire in that
run. -/
theorem c10_unparsed_answer_forces_sentinel (env : Env) (cfg : Config)
    (resp a m : String) (params : Params)
    (hmark : strContains resp testMarker = false)
    (hj : env.jsonParse a = none)
    (hjs : env.jsonParse noSolution = none)
    (hm : params.model_name = some m)
    (hctx : ctxBelow params.submission_context)
    (hvars : "solution" ∉ cfg.variablesMap.map Prod.fst)
    (hdirs : "solution" ∉ cfg.directives.map Prod.fst)
    (hnp : ∀ p q evs, process_input env cfg resp noSolution 0 (some m)
      ≠ Except.ok (PyRet.pair p q, evs)) :
    (evaluationRun env cfg (PyVal.str resp) (PyVal.str a) params).2
      = some ⟨resp, noSolution, some m⟩
    ∧ ∀ ret evs, process_input env cfg resp noSolution 0 (some m)
        = Except.ok (ret, evs) → ∀ k, Ev.shortCircuit k ∉ evs := by
  obtain ⟨mn, sc⟩ := params
  simp only [] at hm hctx
  subst hm
  constructor
  · have hmr : ∀ fbPre, (match evaluationInner.evaluationMain env cfg resp (PyVal.str a)
        ⟨some m, sc⟩ fbPre with
        | Except.ok rc => rc
        | Except.error e =>
          ((⟨"Unexpected error during evaluation: " ++ e, false⟩ : Result),
            (none : Option TutorCall))).2
        = some (⟨resp, noSolution, some m⟩ : TutorCall) := by
      intro fbPre
      unfold evaluationInner.evaluationMain
      simp only [resolveAnswer, hj]
      cases hp : process_input env cfg resp noSolution 0 (some m) with
      | error e => simp
      | ok pr =>
        cases pr with
        | mk ret evs2 =>
          cases ret with
          | str v => simp
          | pair x y => exact absurd hp (hnp x y evs2)
    unfold evaluationRun evaluationInner
    simp only [hmark, Bool.false_eq_true, if_false]
    cases sc with
    | none => exact hmr ""
    | some s =>
      cases s with
      | none => exact hmr ""
      | some n =>
        have hlt : ¬ (n ≥ maxSubmissions) := not_le.mpr hctx
        simp only [if_neg hlt]
        exact hmr (subPrefixMsg n)
  · intro ret evs hpi
    unfold process_input at hpi
    rw [resolveSubmission_sentinel hjs] at hpi
    simp only [] at hpi
    unfold pipelineAfterParse at hpi
    cases hmod : env.moderation resp with
    | error e => rw [hmod] at hpi; cases hpi
    | ok flagged =>
      rw [hmod] at hpi
      simp only [] at hpi
      cases flagged with
      | true =>
        simp only [if_pos] at hpi
        cases hpi
        intro k hk
        simp at hk
      | false =>
        simp only [Bool.false_eq_true, if_false] at hpi
        cases hchat : env.chat ⟨"gpt-4o-mini", some mathCheckSystem,
            mathCheckUser (splitFallback resp noSolution).1 resp, some 0, none⟩ with
        | error e => rw [hchat] at hpi; cases hpi
        | ok mresp =>
          rw [hchat] at hpi
          simp only [] at hpi
          split at hpi
          · cases hpd : process_directives env cfg ((splitFallback resp noSolution).1,
                (splitFallback resp noSolution).2.1, noSolution)
                (Option.getD none cfg.directives) 0 (some m) with
            | error e => rw [hpd] at hpi; cases hpi
            | ok r =>
              rw [hpd] at hpi
              cases r with
              | mk fb2 str2 =>
                cases str2 with
                | mk st2 evs2 =>
                  cases hpi
                  exact process_directives_no_shortCircuit hvars
                    (by simpa using hdirs) hpd
          · cases hpi
            intro k hk
            simp at hk

/-- C10, witness: a plain-text platform answer is replaced by the sentinel
in the recorded tutor call. -/
theorem c10_unparsed_answer_forces_sentinel_witness :
    (evaluationRun envYes cfgPlain (PyVal.str "hi") (PyVal.str "plain")
        ⟨some "gpt-4o", none⟩).2 = some ⟨"hi", noSolution, some "gpt-4o"⟩ := by
  obtain ⟨evs0, h0⟩ : ∃ evs0, process_input envYes cfgPlain "hi" noSolution 0 (some "gpt-4o")
      = Except.ok (PyRet.str "correct", evs0) := ⟨_, rfl⟩
  have h := c10_unparsed_answer_forces_sentinel envYes cfgPlain "hi" "plain" "gpt-4o"
    ⟨some "gpt-4o", none⟩ rfl rfl rfl rfl trivial (by decide) (by decide)
    (by intro p q evs hc; rw [h0] at hc; simp at hc)
  exact h.1
